import Mathlib

set_option maxHeartbeats 1000000

/-!
# Verification of the koa-react-ssr-example comment application

Shallow embedding of the session-scoped comment store and the routes of
`src/server/router.js`, together with the error translator
`renderBoomError` of `src/server/ssr.js`.

Modelling conventions:
* JavaScript `Date` timestamps are `Nat`; `new Date()` becomes an explicit
  `now` parameter supplied to the handler.
* A Koa session object is modelled by the only field the router ever
  touches: `comments`, an `Option (List Comment)` where `none` stands for
  an absent field (JS `undefined`).
* `ctx.request.body["comment"]` is an `Option String` (`none` = field
  absent); JavaScript truthiness of that value is the `truthy` function.
* A thrown Boom error is an `Except.error` carrying the Boom payload;
  a successful response carries the HTTP status and the body.
-/

/-- A stored comment, `{ date: new Date(), comment: ctx.request.body["comment"] }`
from `src/server/router.js`. The `date` field is always assigned at
construction, so it is a plain (non-optional) timestamp. -/
structure Comment where
  date : Nat
  comment : String
deriving Repr, DecidableEq

/-- The caller's session. `comments = none` models a session in which the
`comments` field has never been written. -/
structure Session where
  comments : Option (List Comment)
deriving Repr, DecidableEq

/-- JavaScript truthiness of `ctx.request.body["comment"]`: an absent field
(`undefined`) is falsy, the empty string is falsy, every other string is
truthy. -/
def truthy : Option String → Bool
  | none => false
  | some s => s != ""

/-- A Boom error payload (`err.output.payload`): `statusCode`, `error`,
`message`. -/
structure BoomPayload where
  statusCode : Nat
  error : String
  message : String
deriving Repr, DecidableEq

/-- `Boom.badData(message)`: HTTP 422 Unprocessable Entity with the given
message. -/
def badData (message : String) : BoomPayload :=
  { statusCode := 422, error := "Unprocessable Entity", message := message }

/-- `GET /api/comments` from `src/server/router.js`:
`ctx.session.comments = ctx.session.comments || []; ctx.body = ctx.session.comments;`.
Returns the session after the request together with the HTTP status and the
JSON body. Koa assigns status 200 by default once a body is set and the
handler never throws, so the status component is the constant 200. -/
def getApiComments (s : Session) : Session × Nat × List Comment :=
  let comments := s.comments.getD []
  ({ comments := some comments }, 200, comments)

/-- `POST /api/comments` from `src/server/router.js`: first
`ctx.session.comments = ctx.session.comments || []`, then
`if (!ctx.request.body["comment"]) throw Boom.badData("Empty comments not allowed")`,
otherwise push `{ date: new Date(), comment: ... }` and answer 201 with the
created comment. The pair is (session after the request, outcome). -/
def postComments (s : Session) (body : Option String) (now : Nat) :
    Session × Except BoomPayload (Nat × Comment) :=
  let comments := s.comments.getD []
  if !(truthy body) then
    ({ comments := some comments },
     Except.error (badData "Empty comments not allowed"))
  else
    let c : Comment := { date := now, comment := body.getD "" }
    ({ comments := some (comments ++ [c]) }, Except.ok (201, c))

/-- `GET /comments` from `src/server/router.js`:
`const comments = ctx.session.comments || []; return ctx.render({ screen: "Comments", props: { comments } })`.
The session is only read, never assigned. Result: (session after the
request, rendered screen name, the `comments` prop). -/
def getCommentsView (s : Session) : Session × String × List Comment :=
  (s, "Comments", s.comments.getD [])

/-- The observable outcome of `renderBoomError`: the response status, the
screen it renders, and the three props handed to the page. -/
structure ErrorRender where
  status : Nat
  screen : String
  statusCode : Nat
  error : String
  message : String
deriving Repr, DecidableEq

/-- `renderBoomError` from `src/server/ssr.js`:
`ctx.status = payload.statusCode || 500` (statusCode 0 models a falsy
statusCode), then renders `errors/500` when `ctx.status >= 500`, otherwise
`errors/400`, passing `statusCode`, `error` and `message` as props. -/
def renderBoomError (payload : BoomPayload) : ErrorRender :=
  let status := if payload.statusCode == 0 then 500 else payload.statusCode
  { status := status
    screen := if 500 ≤ status then "errors/500" else "errors/400"
    statusCode := payload.statusCode
    error := payload.error
    message := payload.message }

/-- Modelled from the spec: the error-boundary middleware that catches
errors escaping a handler lives in `src/server/app.js`, which is not among
the provided sources (only its callee `renderBoomError` is). Per the spec,
an unstructured (non-Boom) error "is treated as a 500 with a generic
message — never leak internal error details to the response body": the
boundary boomifies it into a structured 500 payload whose `message` is the
generic Boom text, discarding the internal message. -/
def boomifyUnstructured (_internalMessage : String) : BoomPayload :=
  { statusCode := 500
    error := "Internal Server Error"
    message := "An internal server error occurred" }

/-- End-to-end translation of an unstructured error: boomify at the
boundary, then render through `renderBoomError`. -/
def translateUnstructured (internalMessage : String) : ErrorRender :=
  renderBoomError (boomifyUnstructured internalMessage)

/-- The session store keyed by session token. The framework looks the
caller's session up by its token and writes back only that entry; each
route handler receives exactly `store t` for the caller's token `t`. -/
def Store := String → Session

/-- `GET /api/comments` at the store level: run the handler on the caller's
session and write the updated session back under the caller's token only. -/
def appGetApi (store : Store) (t : String) : Store × Nat × List Comment :=
  let r := getApiComments (store t)
  (fun u => if u = t then r.1 else store u, r.2)

/-- `POST /api/comments` at the store level. -/
def appPostApi (store : Store) (t : String) (body : Option String)
    (now : Nat) : Store × Except BoomPayload (Nat × Comment) :=
  let r := postComments (store t) body now
  (fun u => if u = t then r.1 else store u, r.2)

theorem truthy_some_of_ne {s : String} (h : s ≠ "") :
    truthy (some s) = true := by
  simp [truthy, h]

/-- C1 counterexample: at the concrete whitespace-only input `"   "` the
POST handler does not fail — `"   "` is truthy in JavaScript — so the
comment is accepted with status 201 and appended to the previously empty
stored sequence, contradicting the claim that `append("   ")` fails with a
ValidationError and leaves the sequence unchanged. -/
theorem whitespace_append_accepted :
    (postComments { comments := some [] } (some "   ") 7).2 =
        Except.ok (201, { date := 7, comment := "   " }) ∧
    (postComments { comments := some [] } (some "   ") 7).1.comments =
        some [{ date := 7, comment := "   " }] := by
  constructor <;> rfl

/-- C1 (amended): for every session, `append("")` fails with the
ValidationError `Boom.badData` (a structured 4xx error, status 422) and
leaves the stored comment sequence unchanged; `append("   ")`, being
truthy, instead succeeds and appends a whitespace-only comment, because
the handler rejects exactly the falsy (absent or empty-string) comment
values. -/
theorem empty_append_rejected (s : Session) (now : Nat) :
    (postComments s (some "") now).2 =
        Except.error (badData "Empty comments not allowed") ∧
    400 ≤ (badData "Empty comments not allowed").statusCode ∧
    (badData "Empty comments not allowed").statusCode < 500 ∧
    (postComments s (some "") now).1.comments.getD [] =
        s.comments.getD [] ∧
    (postComments s (some "   ") now).1.comments.getD [] =
        s.comments.getD [] ++ [{ date := now, comment := "   " }] := by
  refine ⟨?_, by decide, by decide, ?_, ?_⟩ <;> simp [postComments, truthy]

/-- C2: an unstructured error reaching the error boundary is rendered with
status 500 (hence 5xx) and the generic Boom message; the internal message
text appears nowhere in the rendered props (stated for every internal
message that is not itself a fragment of the fixed generic strings), and
the whole rendered output is independent of the internal message, so no
internal detail can leak into the response body. -/
theorem unstructured_error_generic_500 (m m' : String)
    (h1 : ¬ List.IsInfix m.data "An internal server error occurred".data)
    (h2 : ¬ List.IsInfix m.data "Internal Server Error".data) :
    (translateUnstructured m).status = 500 ∧
    500 ≤ (translateUnstructured m).status ∧
    (translateUnstructured m).message = "An internal server error occurred" ∧
    ¬ List.IsInfix m.data (translateUnstructured m).message.data ∧
    ¬ List.IsInfix m.data (translateUnstructured m).error.data ∧
    translateUnstructured m = translateUnstructured m' := by
  exact ⟨rfl, Nat.le.refl, rfl, h1, h2, rfl⟩

/-- C2 witness at the concrete internal message "secret db password". -/
theorem unstructured_error_generic_500_witness :
    (translateUnstructured "secret db password").status = 500 ∧
    500 ≤ (translateUnstructured "secret db password").status ∧
    (translateUnstructured "secret db password").message =
        "An internal server error occurred" ∧
    ¬ List.IsInfix "secret db password".data
        (translateUnstructured "secret db password").message.data ∧
    ¬ List.IsInfix "secret db password".data
        (translateUnstructured "secret db password").error.data ∧
    translateUnstructured "secret db password" = translateUnstructured "x" :=
  unstructured_error_generic_500 "secret db password" "x"
    (by decide) (by decide)

/-- C3: for every session and every non-empty comment string, the POST
handler succeeds, answering 201 with the created comment, and a subsequent
`GET /api/comments` lists a sequence whose last element carries that text
and a date (always assigned, modelled as a mandatory field) at least the
time immediately before the call. -/
theorem append_then_list_last (s : Session) (text : String)
    (tBefore now : Nat) (htext : text ≠ "") (htime : tBefore ≤ now) :
    (postComments s (some text) now).2 =
        Except.ok (201, { date := now, comment := text }) ∧
    ∃ c : Comment,
      (getApiComments (postComments s (some text) now).1).2.2.getLast? =
          some c ∧
      c.comment = text ∧ tBefore ≤ c.date := by
  refine ⟨?_, { date := now, comment := text }, ?_, rfl, htime⟩ <;>
    simp [postComments, getApiComments, truthy_some_of_ne htext]

/-- C3 witness at a fresh session, text "hello", time 3 before the call,
server clock 5. -/
theorem append_then_list_last_witness :
    (postComments { comments := none } (some "hello") 5).2 =
        Except.ok (201, { date := 5, comment := "hello" }) ∧
    ∃ c : Comment,
      (getApiComments
          (postComments { comments := none } (some "hello") 5).1).2.2.getLast? =
          some c ∧
      c.comment = "hello" ∧ 3 ≤ c.date :=
  append_then_list_last { comments := none } "hello" 3 5 (by decide)
    (by decide)

/-- C4: appending preserves insertion order. After `append(a)` then
`append(b)`, `list()` returns exactly the prior sequence followed by the
two new comments in order — so from a fresh session it returns `[a, b]`,
and no earlier element is reordered or removed. -/
theorem append_preserves_order (s : Session) (a b : String) (t1 t2 : Nat)
    (ha : a ≠ "") (hb : b ≠ "") :
    (getApiComments
        (postComments (postComments s (some a) t1).1 (some b) t2).1).2.2 =
      s.comments.getD [] ++
        [{ date := t1, comment := a }, { date := t2, comment := b }] := by
  simp [postComments, getApiComments, truthy_some_of_ne ha,
    truthy_some_of_ne hb]

/-- C4 witness: from a fresh session, appending "a" then "b" lists the
two comments in insertion order. -/
theorem append_preserves_order_witness :
    (getApiComments
        (postComments (postComments { comments := none } (some "a") 1).1
          (some "b") 2).1).2.2 =
      ({ comments := none } : Session).comments.getD [] ++
        [{ date := 1, comment := "a" }, { date := 2, comment := "b" }] :=
  append_preserves_order { comments := none } "a" "b" 1 2 (by decide)
    (by decide)

/-- C5: listing never fails — both the API list handler and the view route
are total functions returning an ordered sequence — and on a session whose
`comments` field is absent each returns the empty sequence. -/
theorem list_total_empty_when_absent (s : Session)
    (h : s.comments = none) :
    (getApiComments s).2.2 = s.comments.getD [] ∧
    (getCommentsView s).2.2 = s.comments.getD [] ∧
    (getApiComments s).2.2 = [] ∧
    (getCommentsView s).2.2 = [] := by
  simp [getApiComments, getCommentsView, h]

/-- C5 witness at the fresh session. -/
theorem list_total_empty_when_absent_witness :
    (getApiComments { comments := none }).2.2 =
        ({ comments := none } : Session).comments.getD [] ∧
    (getCommentsView { comments := none }).2.2 =
        ({ comments := none } : Session).comments.getD [] ∧
    (getApiComments { comments := none }).2.2 = [] ∧
    (getCommentsView { comments := none }).2.2 = [] :=
  list_total_empty_when_absent { comments := none } rfl

/-- C6: `GET /api/comments` always succeeds with status 200, returns the
session's full ordered comment sequence, and its only effect on the
session is `comments := some (comments || [])` — the session is left with
exactly its previous sequence, the field being created empty only when it
was absent (a `Session` is exactly its `comments` field, so this equation
characterises the whole side effect). -/
theorem get_api_comments_spec (s : Session) :
    (getApiComments s).2.1 = 200 ∧
    (getApiComments s).2.2 = s.comments.getD [] ∧
    (getApiComments s).1 = { comments := some (s.comments.getD []) } := by
  simp [getApiComments]

/-- C7: for every structured payload with a truthy (non-zero) statusCode,
`renderBoomError` sets the response status to that statusCode, renders the
server-error template `errors/500` exactly when the statusCode is ≥ 500
and the client-error template `errors/400` otherwise, and passes the
payload's statusCode, error and message through as the page props. -/
theorem render_boom_error_structured (p : BoomPayload)
    (h : p.statusCode ≠ 0) :
    (renderBoomError p).status = p.statusCode ∧
    (renderBoomError p).screen =
      (if 500 ≤ p.statusCode then "errors/500" else "errors/400") ∧
    (renderBoomError p).statusCode = p.statusCode ∧
    (renderBoomError p).error = p.error ∧
    (renderBoomError p).message = p.message := by
  simp [renderBoomError, h]

/-- C7 witness at the concrete 404 payload (client-error branch). -/
theorem render_boom_error_structured_witness :
    (renderBoomError ⟨404, "Not Found", "missing"⟩).status = 404 ∧
    (renderBoomError ⟨404, "Not Found", "missing"⟩).screen =
      (if 500 ≤ 404 then "errors/500" else "errors/400") ∧
    (renderBoomError ⟨404, "Not Found", "missing"⟩).statusCode = 404 ∧
    (renderBoomError ⟨404, "Not Found", "missing"⟩).error = "Not Found" ∧
    (renderBoomError ⟨404, "Not Found", "missing"⟩).message = "missing" :=
  render_boom_error_structured ⟨404, "Not Found", "missing"⟩ (by decide)

/-- C8: sessions are isolated. A GET or POST on `/api/comments` made with
token `t` leaves every other token's session untouched, a comment appended
under `t` is invisible to a subsequent list under a distinct token `u`,
and the response to the caller depends only on the caller's own session
(two stores agreeing at `t` give identical responses). -/
theorem session_isolation (store store2 : Store) (t u : String)
    (body : Option String) (now : Nat) (hne : u ≠ t)
    (hagree : store t = store2 t) :
    (appGetApi store t).1 u = store u ∧
    (appPostApi store t body now).1 u = store u ∧
    (appGetApi (appPostApi store t body now).1 u).2 =
        (appGetApi store u).2 ∧
    (appGetApi store t).2 = (appGetApi store2 t).2 ∧
    (appPostApi store t body now).2 = (appPostApi store2 t body now).2 := by
  refine ⟨?_, ?_, ?_, ?_, ?_⟩ <;>
    simp [appGetApi, appPostApi, hne, hagree]

/-- C8 witness: two fresh sessions under tokens "a" and "b", with "hi"
posted under "a". -/
theorem session_isolation_witness :
    (appGetApi (fun _ => { comments := none }) "a").1 "b" =
        (fun _ => ({ comments := none } : Session)) "b" ∧
    (appPostApi (fun _ => { comments := none }) "a" (some "hi") 3).1 "b" =
        (fun _ => ({ comments := none } : Session)) "b" ∧
    (appGetApi
        (appPostApi (fun _ => { comments := none }) "a" (some "hi") 3).1
        "b").2 =
      (appGetApi (fun _ => { comments := none }) "b").2 ∧
    (appGetApi (fun _ => { comments := none }) "a").2 =
        (appGetApi (fun _ => { comments := none }) "a").2 ∧
    (appPostApi (fun _ => { comments := none }) "a" (some "hi") 3).2 =
        (appPostApi (fun _ => { comments := none }) "a" (some "hi") 3).2 :=
  session_isolation (fun _ => { comments := none })
    (fun _ => { comments := none }) "a" "b" (some "hi") 3 (by decide) rfl

/-- C9: on a POST whose body lacks a truthy `comment` field the handler
fails with the ValidationError, yet its session-initialising first line
has already run: afterwards the session's `comments` field holds exactly
the previous sequence — in particular `some []` on a fresh session, so a
rejected request still creates the (empty) field. -/
theorem rejected_post_creates_comments_field (s : Session) (now : Nat)
    (body : Option String) (h : truthy body = false) :
    (postComments s body now).2 =
        Except.error (badData "Empty comments not allowed") ∧
    (postComments s body now).1.comments = some (s.comments.getD []) := by
  simp [postComments, h]

/-- C9 witness: a fresh session and a body without the `comment` field;
after the rejected request the `comments` field exists and is empty. -/
theorem rejected_post_creates_comments_field_witness :
    (postComments { comments := none } none 0).2 =
        Except.error (badData "Empty comments not allowed") ∧
    (postComments { comments := none } none 0).1.comments =
        some (({ comments := none } : Session).comments.getD []) :=
  rejected_post_creates_comments_field { comments := none } 0 none rfl

/-- C10: the `GET /comments` view route is read-only on the session — the
session after the request is the very session before it, so an absent
`comments` field stays absent — and it renders the "Comments" screen with
the session's comment sequence (defaulting to `[]`) as props. -/
theorem comments_view_read_only (s : Session) :
    (getCommentsView s).1 = s ∧
    (getCommentsView s).2.1 = "Comments" ∧
    (getCommentsView s).2.2 = s.comments.getD [] := by
  exact ⟨rfl, rfl, rfl⟩
